import Mathlib

/-!
Verification development for the restuss Nessus/Tenable.io client
(`client.go`).  The definitions below are a shallow embedding of the
resilient call-execution engine `performCallAndReadResponse`
(client.go lines 450-560), the pagination loop of
`GetFindingsByAssetName` (lines 360-448) and the single-asset lookup
`GetAssetByName` (lines 310-356).

Modelling conventions:
* The HTTP transport (`c.httpClient.Do`) is an oracle
  `outcomes : Nat → Outcome β` giving, per attempt index, either a
  transport-level failure (Go: `Do` returns a non-nil error and a nil
  response) or a response with a status code, a `retry-after` header
  value (the result of `res.Header.Get`, `""` when absent) and a body.
* The external jpillora/backoff dependency (not part of this
  repository) is abstracted by the sequence `bDur : Nat → Int` of
  values (nanoseconds) returned by successive `b.Duration()` calls;
  the code calls `b.Duration()` exactly once per non-2xx attempt.
* Observable side effects are recorded as an event trace:
  `AddAuthHeaders` invocations, each `Do` call together with the bytes
  the request-body reader presents to the transport, each
  `time.Sleep` with its duration, and each `res.Body.Close()`.
* Go byte-slice readers drain: `ioutil.ReadAll` and the transport
  consume the reader, so a buffer installed once before the loop
  yields its bytes only to the first send.  The model threads the
  remaining reader contents through the loop.
* Machine integers: `strconv.Atoi` is modelled with its 64-bit range
  check, and `time.Duration(n) * time.Second` with 64-bit two's
  complement wraparound.
* Errors are the literal strings built by `errors.New` in the source.
-/

namespace Restuss

/-- Classification of one attempt's HTTP status (spec §4.2 step c,
client.go lines 491 and 511): statuses below 300 are successes,
429 is rate-limited, every other status ≥ 300 is a retryable
failure. -/
inductive StatusClass where
  | success
  | rateLimited
  | retryableFailure
  deriving DecidableEq, Repr

/-- Status classification as the source performs it: the loop treats
`res.StatusCode >= 300` as a failed attempt (line 491) and inside the
failure branch special-cases `res.StatusCode == http.StatusTooManyRequests`
(429, line 511). -/
def classifyStatus (s : Nat) : StatusClass :=
  if s < 300 then StatusClass.success
  else if s = 429 then StatusClass.rateLimited
  else StatusClass.retryableFailure

/-- Decimal digit value of a character, `none` for non-digits. -/
def decDigit (c : Char) : Option Nat :=
  if c.toNat < 48 then none
  else if 57 < c.toNat then none
  else some (c.toNat - 48)

/-- Accumulating base-10 parse of a digit list; fails on any
non-digit. -/
def digitsLoop : List Char → Nat → Option Nat
  | [], acc => some acc
  | c :: cs, acc =>
    match decDigit c with
    | some v => digitsLoop cs (acc * 10 + v)
    | none => none

/-- Parse a non-empty all-digit character list as a natural number. -/
def parseDecimal (cs : List Char) : Option Nat :=
  match cs with
  | [] => none
  | _ :: _ => digitsLoop cs 0

/-- Model of Go `strconv.Atoi` (equivalently `strconv.ParseInt(s, 10, 64)`
on a 64-bit platform): optional single sign, at least one decimal
digit, no other characters, and the value must fit in a signed 64-bit
integer (out-of-range input returns an error, which the caller at
client.go line 515 treats as a parse failure). -/
def atoi (s : String) : Option Int :=
  match s.toList with
  | '+' :: cs =>
    (parseDecimal cs).bind fun v =>
      if (v : Int) ≤ 9223372036854775807 then some (v : Int) else none
  | '-' :: cs =>
    (parseDecimal cs).bind fun v =>
      if (v : Int) ≤ 9223372036854775808 then some (-(v : Int)) else none
  | cs =>
    (parseDecimal cs).bind fun v =>
      if (v : Int) ≤ 9223372036854775807 then some (v : Int) else none

/-- Two's-complement wraparound of a mathematical integer into the
signed 64-bit range, as Go arithmetic on `time.Duration` (an `int64`)
behaves on overflow. -/
def wrap64 (x : Int) : Int :=
  (x + 9223372036854775808) % 18446744073709551616 - 9223372036854775808

/-- The wait chosen for a failed attempt (client.go lines 507-527):
the backoff duration `w` (already obtained from `b.Duration()`), unless
the attempt was rate-limited (429) and the response carried a
`retry-after` header that `strconv.Atoi` accepts, in which case the
wait is `time.Duration(retryAfterInt) * time.Second` — 64-bit
multiplication of the parsed value by 10^9 nanoseconds. -/
def retryWaitC (cl : StatusClass) (ra : String) (w : Int) : Int :=
  match cl with
  | StatusClass.rateLimited =>
    if ra = "" then w
    else
      match atoi ra with
      | some n => wrap64 (n * 1000000000)
      | none => w
  | _ => w

/-- Outcome of one `httpClient.Do` call: either a transport-level
failure (non-nil error, nil response) or an HTTP response with status
code, `retry-after` header value (`""` when absent, as
`Header.Get` reports) and body of type `β`. -/
inductive Outcome (β : Type) where
  | transportFailure (cause : String)
  | response (status : Nat) (retryAfter : String) (body : β)

/-- True when the outcome is a response the loop retries on
(status ≥ 300, client.go line 491). -/
def isRetryableOutcome {β : Type} : Outcome β → Bool
  | Outcome.response s _ _ => decide (300 ≤ s)
  | Outcome.transportFailure _ => false

/-- The wait the loop computes after a failed attempt whose outcome is
`o`, when `b.Duration()` returned `w` for that attempt. -/
def attemptWait {β : Type} : Outcome β → Int → Int
  | Outcome.response s ra _, w => retryWaitC (classifyStatus s) ra w
  | Outcome.transportFailure _, w => w

/-- Observable events of one `performCallAndReadResponse` call, in
program order. -/
inductive CallEvent where
  | authHeaders
  | send (attempt : Nat) (bodyBytes : List Nat)
  | sleepFor (ns : Int)
  | closeBody (attempt : Nat)
  deriving DecidableEq, Repr

/-- Attempt-index and presented-body pairs of the `Do` calls in a
 trace. -/
def sendList : List CallEvent → List (Nat × List Nat) :=
  List.filterMap fun e =>
    match e with
    | CallEvent.send i b => some (i, b)
    | _ => none

/-- Attempt indices whose response body was closed, in order. -/
def closeList : List CallEvent → List Nat :=
  List.filterMap fun e =>
    match e with
    | CallEvent.closeBody i => some i
    | _ => none

/-- Durations (ns) passed to `time.Sleep`, in order. -/
def sleepList : List CallEvent → List Int :=
  List.filterMap fun e =>
    match e with
    | CallEvent.sleepFor w => some w
    | _ => none

/-- Number of `AddAuthHeaders` invocations in a trace. -/
def authCount (evs : List CallEvent) : Nat :=
  (evs.filterMap fun e =>
    match e with
    | CallEvent.authHeaders => some ()
    | _ => none).length

/-- How the retry loop (client.go lines 480-535) ends: early return on
a transport failure, `success` with the attempt index and response
body on a status < 300, or exhaustion of all attempts (`last` is the
index of the final, failed attempt whose response `res` still holds). -/
inductive LoopExit (β : Type) where
  | transportErr (cause : String)
  | exhausted (last : Nat)
  | success (attempt : Nat) (body : β)

/-- The retry loop, client.go lines 480-535.  Arguments: remaining
iterations (`10 - i` in the source), attempt index `i`, count `bc` of
`b.Duration()` calls made so far, and the bytes remaining in the
request-body reader (installed once, before the loop, at line 473).
Each `Do` presents the remaining reader contents to the transport and
drains them.  A failed attempt logs, reads and closes the response
body, computes `waitTime` and sleeps; a transport error returns
immediately; a status < 300 breaks out of the loop. -/
def loop {β : Type} (o : Nat → Outcome β) (d : Nat → Int) :
    Nat → Nat → Nat → List Nat → LoopExit β × List CallEvent
  | 0, i, _, _ => (LoopExit.exhausted (i - 1), [])
  | fuel + 1, i, bc, body =>
    match o i with
    | Outcome.transportFailure c => (LoopExit.transportErr c, [CallEvent.send i body])
    | Outcome.response s ra b =>
      if 300 ≤ s then
        ((loop o d fuel (i + 1) (bc + 1) []).1,
          CallEvent.send i body :: CallEvent.closeBody i ::
            CallEvent.sleepFor (retryWaitC (classifyStatus s) ra (d bc)) ::
              (loop o d fuel (i + 1) (bc + 1) []).2)
      else (LoopExit.success i b, [CallEvent.send i body])

/-- Result and event trace of one call. -/
structure CallLog (τ : Type) where
  result : Except String (Option τ)
  events : List CallEvent

/-- The code after the loop (client.go lines 537-559): the deferred
close releases `res.Body` whenever `res` is non-nil (on the exhausted
path this body was already closed inside the loop), the exhausted path
returns `Retry limit exceeded`, and the success path decodes into the
target when one was supplied (`dec = none` models a nil `data`).  The
result `Except String (Option τ)` carries the decoded value in place
of the in-place mutation of `data`. -/
def finishCall {β τ : Type} (dec : Option (β → Except String τ))
    (x : LoopExit β) (evs : List CallEvent) : CallLog τ :=
  match x with
  | LoopExit.transportErr c => ⟨Except.error ("Failed call: " ++ c), evs⟩
  | LoopExit.exhausted last =>
    ⟨Except.error "Retry limit exceeded", evs ++ [CallEvent.closeBody last]⟩
  | LoopExit.success k b =>
    match dec with
    | none => ⟨Except.ok none, evs ++ [CallEvent.closeBody k]⟩
    | some f =>
      match f b with
      | Except.ok v => ⟨Except.ok (some v), evs ++ [CallEvent.closeBody k]⟩
      | Except.error msg =>
        ⟨Except.error ("Failed to read the response: " ++ msg),
          evs ++ [CallEvent.closeBody k]⟩

/-- `performCallAndReadResponse` (client.go lines 450-560).
`o` is the transport oracle, `d` the backoff-duration sequence,
`reqBody` the request body (`none` models `req.Body == nil`) and `dec`
the decode target.  The body is read fully into `reqBodyBytes` once
(lines 466-471), the reader is restored once before the loop
(line 473), `AddAuthHeaders` is invoked once (line 475), then the loop
runs for at most 10 attempts. -/
def performCallAndReadResponse {β τ : Type} (o : Nat → Outcome β) (d : Nat → Int)
    (reqBody : Option (List Nat)) (dec : Option (β → Except String τ)) : CallLog τ :=
  finishCall dec (loop o d 10 0 0 (reqBody.getD [])).1
    (CallEvent.authHeaders :: (loop o d 10 0 0 (reqBody.getD [])).2)

/-- Number of transport sends (attempts) the call made. -/
def CallLog.attemptsMade {τ : Type} (l : CallLog τ) : Nat :=
  (sendList l.events).length

/-- The byte sequences presented to the transport, per attempt. -/
def CallLog.sentBodies {τ : Type} (l : CallLog τ) : List (List Nat) :=
  (sendList l.events).map Prod.snd

/-- The sleeps the call performed, in order. -/
def CallLog.sleeps {τ : Type} (l : CallLog τ) : List Int :=
  sleepList l.events

/-- Attempt indices whose response body was closed, in order, with
multiplicity. -/
def CallLog.closes {τ : Type} (l : CallLog τ) : List Nat :=
  closeList l.events

/-- Number of `AddAuthHeaders` invocations the call performed. -/
def CallLog.authCalls {τ : Type} (l : CallLog τ) : Nat :=
  authCount l.events

/-- The waits of `m` consecutive failed attempts starting at attempt
`i` with `bc` prior `b.Duration()` calls. -/
def waitSeq {β : Type} (o : Nat → Outcome β) (d : Nat → Int) :
    Nat → Nat → Nat → List Int
  | _, _, 0 => []
  | i, bc, m + 1 => attemptWait (o i) (d bc) :: waitSeq o d (i + 1) (bc + 1) m

/-! Pagination: `GetFindingsByAssetName` (client.go lines 360-448).

The per-page HTTP exchange (each one full `performCallAndReadResponse`
invocation) is abstracted by an oracle
`pages : Nat → List φ × String` giving, for the `k`-th page-fetch
call, the decoded `findings` list and the `pagination.next` cursor of
the server's (successful) response.  Call 0 is the initial request
carrying the marshalled filter payload (modelled by the opaque string
`initBody`); every follow-up call `k ≥ 1` carries exactly the body
`{"next":"<token>"}` built at line 424 from the cursor returned by
call `k - 1`. -/

/-- The follow-up request body built by
`fmt.Sprintf("{\"next\":\"%s\"}", next)` at client.go line 424
(`\x7b`/`\x7d` are the literal braces). -/
def nextPageBody (token : String) : String :=
  "\x7b\"next\":\"" ++ token ++ "\"\x7d"

/-- The pagination loop (client.go lines 423-445): while the current
cursor is non-empty, issue a request whose body is
`nextPageBody cur`, append the returned findings, and continue with
the returned cursor.  `fuel` bounds the recursion; the Go loop is
unbounded and a server that never returns an empty cursor iterates
forever, modelled by the `none` result on fuel exhaustion.  Returns
the aggregated findings (in arrival order) and the list of issued
follow-up request bodies. -/
def pagesLoop {φ : Type} (pages : Nat → List φ × String) :
    Nat → Nat → String → Option (List φ) × List String
  | 0, _, cur => if cur = "" then (some [], []) else (none, [])
  | fuel + 1, k, cur =>
    if cur = "" then (some [], [])
    else
      ((pagesLoop pages fuel (k + 1) (pages k).2).1.map (fun l => (pages k).1 ++ l),
        nextPageBody cur :: (pagesLoop pages fuel (k + 1) (pages k).2).2)

/-- `GetFindingsByAssetName` (client.go lines 360-448): one initial
call (page-fetch 0, request body `initBody`), then the pagination
loop driven by the first response's cursor.  Returns the concatenated
findings and the bodies of all page-fetch requests issued, in order. -/
def getFindingsByAssetName {φ : Type} (pages : Nat → List φ × String)
    (initBody : String) (fuel : Nat) : Option (List φ) × List String :=
  ((pagesLoop pages fuel 1 (pages 0).2).1.map (fun l => (pages 0).1 ++ l),
    initBody :: (pagesLoop pages fuel 1 (pages 0).2).2)

/-- Concatenation of the findings of page-fetches `k, k+1, …, k+m-1`
in arrival order. -/
def pageConcatFrom {φ : Type} (pages : Nat → List φ × String) : Nat → Nat → List φ
  | _, 0 => []
  | k, m + 1 => (pages k).1 ++ pageConcatFrom pages (k + 1) m

/-- The follow-up bodies built from the cursors of page-fetches
`j, j+1, …, j+m-1`. -/
def tokenBodies {φ : Type} (pages : Nat → List φ × String) : Nat → Nat → List String
  | _, 0 => []
  | j, m + 1 => nextPageBody ((pages j).2) :: tokenBodies pages (j + 1) m

/-! Single-asset lookup `GetAssetByName` (client.go lines 310-356). -/

/-- The post-decode logic of `GetAssetByName` (client.go lines
348-355): zero decoded assets is an error, more than one is an error
reporting the count (`fmt.Errorf("More than one asset matching name:
%v (%d)", name, count)`), exactly one is returned. -/
def getAssetByName {α : Type} (name : String) (assets : List α) : Except String α :=
  if assets.length = 0 then Except.error ("No assets matching name: " ++ name)
  else if 1 < assets.length then
    Except.error ("More than one asset matching name: " ++ name ++
      " (" ++ toString assets.length ++ ")")
  else
    match assets with
    | a :: _ => Except.ok a
    | [] => Except.error ("No assets matching name: " ++ name)

/-! Helper lemmas about the retry loop and its event trace. -/

/-- Remaining request-body reader contents after `m` loop iterations:
the installed buffer for the first send, drained afterwards. -/
def bodyAfter : Nat → List Nat → List Nat
  | 0, b => b
  | _ + 1, _ => []

theorem bodyAfter_nil (m : Nat) : bodyAfter m [] = [] := by
  cases m <;> rfl

theorem loop_zero {β : Type} (o : Nat → Outcome β) (d : Nat → Int) (i bc : Nat)
    (body : List Nat) : loop o d 0 i bc body = (LoopExit.exhausted (i - 1), []) := rfl

theorem loop_transport_step {β : Type} (o : Nat → Outcome β) (d : Nat → Int)
    (f i bc : Nat) (body : List Nat) (c : String)
    (h : o i = Outcome.transportFailure c) :
    loop o d (f + 1) i bc body = (LoopExit.transportErr c, [CallEvent.send i body]) := by
  simp [loop, h]

theorem loop_success_step {β : Type} (o : Nat → Outcome β) (d : Nat → Int)
    (f i bc : Nat) (body : List Nat) (s : Nat) (ra : String) (b : β)
    (h : o i = Outcome.response s ra b) (hs : s < 300) :
    loop o d (f + 1) i bc body = (LoopExit.success i b, [CallEvent.send i body]) := by
  simp [loop, h, Nat.not_le.mpr hs]

theorem loop_fail_step {β : Type} (o : Nat → Outcome β) (d : Nat → Int)
    (f i bc : Nat) (body : List Nat) (s : Nat) (ra : String) (b : β)
    (h : o i = Outcome.response s ra b) (hs : 300 ≤ s) :
    loop o d (f + 1) i bc body =
      ((loop o d f (i + 1) (bc + 1) []).1,
        CallEvent.send i body :: CallEvent.closeBody i ::
          CallEvent.sleepFor (retryWaitC (classifyStatus s) ra (d bc)) ::
            (loop o d f (i + 1) (bc + 1) []).2) := by
  simp [loop, h, hs]



@[simp] theorem closeList_nil : closeList [] = [] := rfl

@[simp] theorem closeList_cons_send (i : Nat) (b : List Nat) (l : List CallEvent) :
    closeList (CallEvent.send i b :: l) = closeList l := rfl

@[simp] theorem closeList_cons_close (i : Nat) (l : List CallEvent) :
    closeList (CallEvent.closeBody i :: l) = i :: closeList l := rfl

@[simp] theorem closeList_cons_sleep (w : Int) (l : List CallEvent) :
    closeList (CallEvent.sleepFor w :: l) = closeList l := rfl

@[simp] theorem closeList_cons_auth (l : List CallEvent) :
    closeList (CallEvent.authHeaders :: l) = closeList l := rfl

@[simp] theorem closeList_append (l1 l2 : List CallEvent) :
    closeList (l1 ++ l2) = closeList l1 ++ closeList l2 :=
  List.filterMap_append _ _ _

@[simp] theorem sendList_nil : sendList [] = [] := rfl

@[simp] theorem sendList_cons_send (i : Nat) (b : List Nat) (l : List CallEvent) :
    sendList (CallEvent.send i b :: l) = (i, b) :: sendList l := rfl

@[simp] theorem sendList_cons_close (i : Nat) (l : List CallEvent) :
    sendList (CallEvent.closeBody i :: l) = sendList l := rfl

@[simp] theorem sendList_cons_sleep (w : Int) (l : List CallEvent) :
    sendList (CallEvent.sleepFor w :: l) = sendList l := rfl

@[simp] theorem sendList_cons_auth (l : List CallEvent) :
    sendList (CallEvent.authHeaders :: l) = sendList l := rfl

@[simp] theorem sendList_append (l1 l2 : List CallEvent) :
    sendList (l1 ++ l2) = sendList l1 ++ sendList l2 :=
  List.filterMap_append _ _ _

@[simp] theorem sleepList_nil : sleepList [] = [] := rfl

@[simp] theorem sleepList_cons_send (i : Nat) (b : List Nat) (l : List CallEvent) :
    sleepList (CallEvent.send i b :: l) = sleepList l := rfl

@[simp] theorem sleepList_cons_close (i : Nat) (l : List CallEvent) :
    sleepList (CallEvent.closeBody i :: l) = sleepList l := rfl

@[simp] theorem sleepList_cons_sleep (w : Int) (l : List CallEvent) :
    sleepList (CallEvent.sleepFor w :: l) = w :: sleepList l := rfl

@[simp] theorem sleepList_cons_auth (l : List CallEvent) :
    sleepList (CallEvent.authHeaders :: l) = sleepList l := rfl

@[simp] theorem sleepList_append (l1 l2 : List CallEvent) :
    sleepList (l1 ++ l2) = sleepList l1 ++ sleepList l2 :=
  List.filterMap_append _ _ _

@[simp] theorem authCount_nil : authCount [] = 0 := rfl

@[simp] theorem authCount_cons_send (i : Nat) (b : List Nat) (l : List CallEvent) :
    authCount (CallEvent.send i b :: l) = authCount l := rfl

@[simp] theorem authCount_cons_close (i : Nat) (l : List CallEvent) :
    authCount (CallEvent.closeBody i :: l) = authCount l := rfl

@[simp] theorem authCount_cons_sleep (w : Int) (l : List CallEvent) :
    authCount (CallEvent.sleepFor w :: l) = authCount l := rfl

@[simp] theorem authCount_cons_auth (l : List CallEvent) :
    authCount (CallEvent.authHeaders :: l) = authCount l + 1 := by
  simp [authCount, List.filterMap_cons]

@[simp] theorem authCount_append (l1 l2 : List CallEvent) :
    authCount (l1 ++ l2) = authCount l1 + authCount l2 := by
  simp [authCount, List.filterMap_append]

theorem loop_fail_run {β : Type} (o : Nat → Outcome β) (d : Nat → Int) :
    ∀ (m fuel i bc : Nat) (body : List Nat), m ≤ fuel →
    (∀ j, j < m → isRetryableOutcome (o (i + j)) = true) →
    (loop o d fuel i bc body).1 =
      (loop o d (fuel - m) (i + m) (bc + m) (bodyAfter m body)).1 ∧
    closeList (loop o d fuel i bc body).2 =
      List.range' i m ++ closeList (loop o d (fuel - m) (i + m) (bc + m) (bodyAfter m body)).2 ∧
    sleepList (loop o d fuel i bc body).2 =
      waitSeq o d i bc m ++ sleepList (loop o d (fuel - m) (i + m) (bc + m) (bodyAfter m body)).2 ∧
    (sendList (loop o d fuel i bc body).2).length =
      m + (sendList (loop o d (fuel - m) (i + m) (bc + m) (bodyAfter m body)).2).length ∧
    authCount (loop o d fuel i bc body).2 =
      authCount (loop o d (fuel - m) (i + m) (bc + m) (bodyAfter m body)).2 := by
  intro m
  induction m with
  | zero =>
    intro fuel i bc body _ _
    simp [bodyAfter, waitSeq]
  | succ m ih =>
    intro fuel i bc body hm hj
    cases fuel with
    | zero => exact absurd hm (by omega)
    | succ f =>
      have h0 : isRetryableOutcome (o i) = true := by
        have := hj 0 (Nat.succ_pos m)
        simpa using this
      cases ho : o i with
      | transportFailure c =>
        rw [ho] at h0
        simp [isRetryableOutcome] at h0
      | response s ra b =>
        have hs : 300 ≤ s := by
          rw [ho] at h0
          simpa [isRetryableOutcome] using h0
        rw [loop_fail_step o d f i bc body s ra b ho hs]
        have ih' := ih f (i + 1) (bc + 1) [] (by omega) (fun j hjm => by
          have := hj (j + 1) (by omega)
          have e : i + (j + 1) = i + 1 + j := by omega
          rwa [e] at this)
        have e1 : f + 1 - (m + 1) = f - m := by omega
        have e2 : i + (m + 1) = i + 1 + m := by omega
        have e3 : bc + (m + 1) = bc + 1 + m := by omega
        have e4 : bodyAfter (m + 1) body = bodyAfter m [] := (bodyAfter_nil m).symm
        rw [e1, e2, e3, e4]
        refine ⟨by simpa using ih'.1, ?_, ?_, ?_, ?_⟩
        · rw [List.range'_succ, List.cons_append]
          simp only [closeList_cons_send, closeList_cons_close, closeList_cons_sleep]
          exact congrArg (List.cons i) ih'.2.1
        · have hw : waitSeq o d i bc (m + 1) =
              attemptWait (o i) (d bc) :: waitSeq o d (i + 1) (bc + 1) m := rfl
          rw [hw, ho]
          have ha : attemptWait (Outcome.response s ra b) (d bc) =
              retryWaitC (classifyStatus s) ra (d bc) := rfl
          rw [ha, List.cons_append]
          simp only [sleepList_cons_send, sleepList_cons_close, sleepList_cons_sleep]
          exact congrArg _ ih'.2.2.1
        · simp only [sendList_cons_send, sendList_cons_close, sendList_cons_sleep,
            List.length_cons]
          have hlen := ih'.2.2.2.1
          omega
        · simp only [authCount_cons_send, authCount_cons_close, authCount_cons_sleep]
          exact ih'.2.2.2.2


theorem loop_no_auth {β : Type} (o : Nat → Outcome β) (d : Nat → Int) :
    ∀ (fuel i bc : Nat) (body : List Nat), authCount (loop o d fuel i bc body).2 = 0 := by
  intro fuel
  induction fuel with
  | zero => intro i bc body; rfl
  | succ f ih =>
    intro i bc body
    cases ho : o i with
    | transportFailure c => rw [loop_transport_step o d f i bc body c ho]; rfl
    | response s ra b =>
      by_cases hs : 300 ≤ s
      · rw [loop_fail_step o d f i bc body s ra b ho hs]
        simp only [authCount_cons_send, authCount_cons_close, authCount_cons_sleep]
        exact ih (i + 1) (bc + 1) []
      · rw [loop_success_step o d f i bc body s ra b ho (by omega)]
        rfl

theorem waitSeq_length {β : Type} (o : Nat → Outcome β) (d : Nat → Int) :
    ∀ (m i bc : Nat), (waitSeq o d i bc m).length = m := by
  intro m
  induction m with
  | zero => intro i bc; rfl
  | succ m ih =>
    intro i bc
    show (attemptWait (o i) (d bc) :: waitSeq o d (i + 1) (bc + 1) m).length = m + 1
    simp [ih]

theorem waitSeq_get {β : Type} (o : Nat → Outcome β) (d : Nat → Int) :
    ∀ (m i bc j : Nat), j < m →
      (waitSeq o d i bc m)[j]? = some (attemptWait (o (i + j)) (d (bc + j))) := by
  intro m
  induction m with
  | zero => intro i bc j hj; exact absurd hj (by omega)
  | succ m ih =>
    intro i bc j hj
    have hw : waitSeq o d i bc (m + 1) =
        attemptWait (o i) (d bc) :: waitSeq o d (i + 1) (bc + 1) m := rfl
    rw [hw]
    cases j with
    | zero => simp
    | succ j =>
      rw [List.getElem?_cons_succ, ih (i + 1) (bc + 1) j (by omega)]
      have e1 : i + 1 + j = i + (j + 1) := by omega
      have e2 : bc + 1 + j = bc + (j + 1) := by omega
      rw [e1, e2]

theorem count_range' :
    ∀ (n s j : Nat), (List.range' s n).count j = if s ≤ j ∧ j < s + n then 1 else 0 := by
  intro n
  induction n with
  | zero =>
    intro s j
    rw [if_neg (by omega)]
    rfl
  | succ n ih =>
    intro s j
    rw [List.range'_succ, List.count_cons, ih (s + 1) j]
    simp only [beq_iff_eq]
    by_cases h2 : s = j
    · subst h2
      rw [if_pos rfl, if_neg (by omega), if_pos (by omega)]
    · rw [if_neg h2]
      by_cases h1 : s + 1 ≤ j ∧ j < s + 1 + n
      · rw [if_pos h1, if_pos (by omega)]
      · rw [if_neg h1, if_neg (by omega)]

theorem performCall_unfold {β τ : Type} (o : Nat → Outcome β) (d : Nat → Int)
    (rb : Option (List Nat)) (dec : Option (β → Except String τ)) :
    performCallAndReadResponse o d rb dec =
      finishCall dec (loop o d 10 0 0 (rb.getD [])).1
        (CallEvent.authHeaders :: (loop o d 10 0 0 (rb.getD [])).2) := rfl

theorem loop_all_fail {β : Type} (o : Nat → Outcome β) (d : Nat → Int) (body : List Nat)
    (h : ∀ j, j < 10 → isRetryableOutcome (o j) = true) :
    (loop o d 10 0 0 body).1 = LoopExit.exhausted 9 ∧
    closeList (loop o d 10 0 0 body).2 = List.range' 0 10 ∧
    sleepList (loop o d 10 0 0 body).2 = waitSeq o d 0 0 10 ∧
    (sendList (loop o d 10 0 0 body).2).length = 10 := by
  have hr := loop_fail_run o d 10 10 0 0 body (by omega)
    (fun j hj => by simpa using h j hj)
  simp only [Nat.zero_add, Nat.sub_self] at hr
  refine ⟨?_, ?_, ?_, ?_⟩
  · rw [hr.1, loop_zero]
  · rw [hr.2.1, loop_zero]
    simp
  · rw [hr.2.2.1, loop_zero]
    simp
  · rw [hr.2.2.2.1, loop_zero]
    simp

theorem loop_first_success {β : Type} (o : Nat → Outcome β) (d : Nat → Int) (body : List Nat)
    (k s : Nat) (ra : String) (b : β)
    (hk : k < 10) (hpre : ∀ j, j < k → isRetryableOutcome (o j) = true)
    (hsucc : o k = Outcome.response s ra b) (hs : s < 300) :
    (loop o d 10 0 0 body).1 = LoopExit.success k b ∧
    closeList (loop o d 10 0 0 body).2 = List.range' 0 k ∧
    sleepList (loop o d 10 0 0 body).2 = waitSeq o d 0 0 k ∧
    (sendList (loop o d 10 0 0 body).2).length = k + 1 := by
  have hr := loop_fail_run o d k 10 0 0 body (by omega)
    (fun j hj => by simpa using hpre j hj)
  simp only [Nat.zero_add] at hr
  have hfuel : 10 - k = (9 - k) + 1 := by omega
  rw [hfuel] at hr
  have hstep := loop_success_step o d (9 - k) k k (bodyAfter k body) s ra b hsucc hs
  refine ⟨?_, ?_, ?_, ?_⟩
  · rw [hr.1, hstep]
  · rw [hr.2.1, hstep]
    simp
  · rw [hr.2.2.1, hstep]
    simp
  · rw [hr.2.2.2.1, hstep]
    simp

theorem loop_first_transport {β : Type} (o : Nat → Outcome β) (d : Nat → Int) (body : List Nat)
    (k : Nat) (c : String)
    (hk : k < 10) (hpre : ∀ j, j < k → isRetryableOutcome (o j) = true)
    (hc : o k = Outcome.transportFailure c) :
    (loop o d 10 0 0 body).1 = LoopExit.transportErr c ∧
    closeList (loop o d 10 0 0 body).2 = List.range' 0 k ∧
    sleepList (loop o d 10 0 0 body).2 = waitSeq o d 0 0 k ∧
    (sendList (loop o d 10 0 0 body).2).length = k + 1 := by
  have hr := loop_fail_run o d k 10 0 0 body (by omega)
    (fun j hj => by simpa using hpre j hj)
  simp only [Nat.zero_add] at hr
  have hfuel : 10 - k = (9 - k) + 1 := by omega
  rw [hfuel] at hr
  have hstep := loop_transport_step o d (9 - k) k k (bodyAfter k body) c hc
  refine ⟨?_, ?_, ?_, ?_⟩
  · rw [hr.1, hstep]
  · rw [hr.2.1, hstep]
    simp
  · rw [hr.2.2.1, hstep]
    simp
  · rw [hr.2.2.2.1, hstep]
    simp

/-- The body closes `finishCall` appends after the loop: the deferred
close fires whenever the loop left a non-nil response behind. -/
def exitCloses {β : Type} : LoopExit β → List Nat
  | LoopExit.transportErr _ => []
  | LoopExit.exhausted last => [last]
  | LoopExit.success k _ => [k]

theorem finishCall_attempts {β τ : Type} (dec : Option (β → Except String τ))
    (x : LoopExit β) (evs : List CallEvent) :
    (finishCall dec x evs).attemptsMade = (sendList evs).length := by
  cases x with
  | transportErr c => simp [finishCall, CallLog.attemptsMade]
  | exhausted last => simp [finishCall, CallLog.attemptsMade]
  | success k b =>
    cases dec with
    | none => simp [finishCall, CallLog.attemptsMade]
    | some f => cases hfb : f b <;> simp [finishCall, hfb, CallLog.attemptsMade]

theorem finishCall_sentBodies {β τ : Type} (dec : Option (β → Except String τ))
    (x : LoopExit β) (evs : List CallEvent) :
    (finishCall dec x evs).sentBodies = (sendList evs).map Prod.snd := by
  cases x with
  | transportErr c => simp [finishCall, CallLog.sentBodies]
  | exhausted last => simp [finishCall, CallLog.sentBodies]
  | success k b =>
    cases dec with
    | none => simp [finishCall, CallLog.sentBodies]
    | some f => cases hfb : f b <;> simp [finishCall, hfb, CallLog.sentBodies]

theorem finishCall_sleeps {β τ : Type} (dec : Option (β → Except String τ))
    (x : LoopExit β) (evs : List CallEvent) :
    (finishCall dec x evs).sleeps = sleepList evs := by
  cases x with
  | transportErr c => simp [finishCall, CallLog.sleeps]
  | exhausted last => simp [finishCall, CallLog.sleeps]
  | success k b =>
    cases dec with
    | none => simp [finishCall, CallLog.sleeps]
    | some f => cases hfb : f b <;> simp [finishCall, hfb, CallLog.sleeps]

theorem finishCall_authCalls {β τ : Type} (dec : Option (β → Except String τ))
    (x : LoopExit β) (evs : List CallEvent) :
    (finishCall dec x evs).authCalls = authCount evs := by
  cases x with
  | transportErr c => simp [finishCall, CallLog.authCalls]
  | exhausted last => simp [finishCall, CallLog.authCalls]
  | success k b =>
    cases dec with
    | none => simp [finishCall, CallLog.authCalls]
    | some f => cases hfb : f b <;> simp [finishCall, hfb, CallLog.authCalls]

theorem finishCall_closes {β τ : Type} (dec : Option (β → Except String τ))
    (x : LoopExit β) (evs : List CallEvent) :
    (finishCall dec x evs).closes = closeList evs ++ exitCloses x := by
  cases x with
  | transportErr c => simp [finishCall, CallLog.closes, exitCloses]
  | exhausted last => simp [finishCall, CallLog.closes, exitCloses]
  | success k b =>
    cases dec with
    | none => simp [finishCall, CallLog.closes, exitCloses]
    | some f => cases hfb : f b <;> simp [finishCall, hfb, CallLog.closes, exitCloses]

theorem finishCall_events_head {β τ : Type} (dec : Option (β → Except String τ))
    (x : LoopExit β) (evs : List CallEvent) :
    (finishCall dec x (CallEvent.authHeaders :: evs)).events.head? =
      some CallEvent.authHeaders := by
  cases x with
  | transportErr c => simp [finishCall]
  | exhausted last => simp [finishCall]
  | success k b =>
    cases dec with
    | none => simp [finishCall]
    | some f => cases hfb : f b <;> simp [finishCall, hfb]

/-! Claim theorems, counterexamples and witnesses. -/

/-- Claim C3: for every sequence of 10 consecutive attempt outcomes
whose HTTP status codes are all ≥ 300 (and with no transport failure),
`performCallAndReadResponse` makes exactly 10 attempts and then
returns the retry-limit-exceeded error. -/
theorem retryLimit_after_ten_failures {β τ : Type} (o : Nat → Outcome β) (d : Nat → Int)
    (rb : Option (List Nat)) (dec : Option (β → Except String τ))
    (h : ∀ j, j < 10 → isRetryableOutcome (o j) = true) :
    (performCallAndReadResponse o d rb dec).result = Except.error "Retry limit exceeded" ∧
    (performCallAndReadResponse o d rb dec).attemptsMade = 10 := by
  have hl := loop_all_fail o d (rb.getD []) h
  rw [performCall_unfold, hl.1]
  constructor
  · rfl
  · rw [finishCall_attempts]
    simpa using hl.2.2.2

/-- Witness for C3: ten 500-responses give the retry-limit error after
exactly 10 attempts. -/
theorem retryLimit_after_ten_failures_witness :
    (performCallAndReadResponse (fun _ => Outcome.response 500 "" (0 : Nat))
      (fun _ => (7 : Int)) none (none : Option (Nat → Except String Nat))).result =
        Except.error "Retry limit exceeded" ∧
    (performCallAndReadResponse (fun _ => Outcome.response 500 "" (0 : Nat))
      (fun _ => (7 : Int)) none (none : Option (Nat → Except String Nat))).attemptsMade = 10 :=
  retryLimit_after_ten_failures _ _ _ _ (fun _ _ => rfl)

/-- Claim C4: a run of at most 10 attempts whose final status is below
300 and whose earlier statuses are all ≥ 300 makes exactly that many
attempts, decodes the final body into the supplied target (and
succeeds with no decoding when no target is supplied), and returns
without error; moreover statuses < 300 classify as success, 429 as
rate-limited and every other status ≥ 300 as a retryable failure. -/
theorem success_after_failures_decodes {β τ : Type} (o : Nat → Outcome β) (d : Nat → Int)
    (rb : Option (List Nat)) (f : β → Except String τ)
    (n s : Nat) (ra : String) (b : β) (v : τ)
    (hn1 : 1 ≤ n) (hn : n ≤ 10)
    (hpre : ∀ j, j < n - 1 → isRetryableOutcome (o j) = true)
    (hfin : o (n - 1) = Outcome.response s ra b)
    (hs : s < 300)
    (hv : f b = Except.ok v) :
    (performCallAndReadResponse o d rb (some f)).result = Except.ok (some v) ∧
    (performCallAndReadResponse o d rb (some f)).attemptsMade = n ∧
    (performCallAndReadResponse o d rb (none : Option (β → Except String τ))).result =
      Except.ok none ∧
    (performCallAndReadResponse o d rb (none : Option (β → Except String τ))).attemptsMade = n ∧
    classifyStatus s = StatusClass.success ∧
    classifyStatus 429 = StatusClass.rateLimited ∧
    (∀ t, 300 ≤ t → t ≠ 429 → classifyStatus t = StatusClass.retryableFailure) := by
  have hl := loop_first_success o d (rb.getD []) (n - 1) s ra b (by omega) hpre hfin hs
  refine ⟨?_, ?_, ?_, ?_, ?_, ?_, ?_⟩
  · rw [performCall_unfold, hl.1]
    simp [finishCall, hv]
  · rw [performCall_unfold, hl.1, finishCall_attempts]
    have := hl.2.2.2
    simp only [sendList_cons_auth]
    omega
  · rw [performCall_unfold, hl.1]
    simp [finishCall]
  · rw [performCall_unfold, hl.1, finishCall_attempts]
    have := hl.2.2.2
    simp only [sendList_cons_auth]
    omega
  · simp [classifyStatus, hs]
  · rfl
  · intro t h300 hne
    simp [classifyStatus, Nat.not_lt.mpr h300, hne]

/-- Witness for C4: two 500-responses then a 200 whose body decodes to
8 give a decoded success after exactly 3 attempts. -/
theorem success_after_failures_decodes_witness :
    (performCallAndReadResponse
      (fun k => if k < 2 then Outcome.response 500 "" (0 : Nat) else Outcome.response 200 "" 7)
      (fun _ => (7 : Int)) none (some fun b => Except.ok (b + 1))).result =
        Except.ok (some 8) ∧
    (performCallAndReadResponse
      (fun k => if k < 2 then Outcome.response 500 "" (0 : Nat) else Outcome.response 200 "" 7)
      (fun _ => (7 : Int)) none (some fun b => Except.ok (b + 1))).attemptsMade = 3 := by
  have h := success_after_failures_decodes
    (fun k => if k < 2 then Outcome.response 500 "" (0 : Nat) else Outcome.response 200 "" 7)
    (fun _ => (7 : Int)) none (fun b => Except.ok (b + 1)) 3 200 "" 7 8
    (by omega) (by omega) (by decide) (by rfl) (by omega) (by rfl)
  exact ⟨h.1, h.2.1⟩

theorem wrap64_eq_self (x : Int) (h1 : -9223372036854775808 ≤ x)
    (h2 : x ≤ 9223372036854775807) : wrap64 x = x := by
  unfold wrap64
  have h0 : 0 ≤ x + 9223372036854775808 := by omega
  have hlt : x + 9223372036854775808 < 18446744073709551616 := by omega
  rw [Int.emod_eq_of_lt h0 hlt]
  omega

/-- Claim C5 (amended): after an attempt that yields 429, the wait is
`retryWaitC` of the header and that attempt's backoff duration; when
the header parses as an integer `n` whose value in nanoseconds fits in
a signed 64-bit integer, that wait is exactly `n` seconds regardless
of the backoff parameters, and when the header is absent or fails to
parse the wait is the backoff duration.  (As stated the claim fails
for parsed values whose nanosecond count overflows `int64`; see the
counterexample.) -/
theorem retryAfter_wait_amended {β τ : Type} (o : Nat → Outcome β) (d : Nat → Int)
    (rb : Option (List Nat)) (dec : Option (β → Except String τ))
    (k : Nat) (ra : String) (b : β)
    (hk : k < 10)
    (hpre : ∀ j, j < k → isRetryableOutcome (o j) = true)
    (h429 : o k = Outcome.response 429 ra b) :
    (performCallAndReadResponse o d rb dec).sleeps[k]? =
      some (retryWaitC StatusClass.rateLimited ra (d k)) ∧
    (∀ n : Int, atoi ra = some n → -9223372036854775808 ≤ n * 1000000000 →
      n * 1000000000 ≤ 9223372036854775807 →
      retryWaitC StatusClass.rateLimited ra (d k) = n * 1000000000) ∧
    (ra = "" → retryWaitC StatusClass.rateLimited ra (d k) = d k) ∧
    (atoi ra = none → retryWaitC StatusClass.rateLimited ra (d k) = d k) := by
  refine ⟨?_, ?_, ?_, ?_⟩
  · have hall : ∀ j, j < k + 1 → isRetryableOutcome (o j) = true := by
      intro j hj
      by_cases hjk : j < k
      · exact hpre j hjk
      · have : j = k := by omega
        subst this
        rw [h429]
        rfl
    have hr := loop_fail_run o d (k + 1) 10 0 0 (rb.getD []) (by omega)
      (fun j hj => by simpa using hall j hj)
    rw [performCall_unfold, finishCall_sleeps]
    simp only [sleepList_cons_auth]
    rw [hr.2.2.1]
    have hlen : (waitSeq o d 0 0 (k + 1)).length = k + 1 := waitSeq_length o d (k + 1) 0 0
    rw [List.getElem?_append, hlen, if_pos (by omega)]
    rw [waitSeq_get o d (k + 1) 0 0 k (by omega)]
    simp only [Nat.zero_add]
    rw [h429]
    rfl
  · intro n hn hlo hhi
    have hne : ra ≠ "" := by
      intro he
      rw [he, show atoi "" = none from rfl] at hn
      exact Option.noConfusion hn
    simp only [retryWaitC, if_neg hne, hn]
    exact wrap64_eq_self _ hlo hhi
  · intro he
    simp [retryWaitC, he]
  · intro hn
    by_cases he : ra = ""
    · simp [retryWaitC, he]
    · simp [retryWaitC, he, hn]

/-- Witness for C5: a 429 with `retry-after: 5` makes the wait before
the next attempt exactly 5 seconds even though the backoff duration
for that attempt is 7 ns. -/
theorem retryAfter_wait_amended_witness :
    (performCallAndReadResponse
      (fun k => if k = 0 then Outcome.response 429 "5" (0 : Nat)
        else Outcome.response 200 "" 0)
      (fun _ => (7 : Int)) none
      (none : Option (Nat → Except String Nat))).sleeps[0]? = some 5000000000 := by
  have h := retryAfter_wait_amended
    (fun k => if k = 0 then Outcome.response 429 "5" (0 : Nat) else Outcome.response 200 "" 0)
    (fun _ => (7 : Int)) none (none : Option (Nat → Except String Nat)) 0 "5" 0
    (by omega) (fun j hj => absurd hj (by omega)) rfl
  have h2 := h.2.1 5 (by decide) (by decide) (by decide)
  rw [h.1, h2]
  decide

/-- Counterexample to C5 as stated: `retry-after: 9223372037` parses
as the decimal integer 9223372037, but its nanosecond count overflows
the 64-bit duration type, so the wait is not 9223372037 seconds (it
wraps to a negative duration). -/
theorem retryAfter_wait_cx :
    (performCallAndReadResponse
      (fun k => if k = 0 then Outcome.response 429 "9223372037" (0 : Nat)
        else Outcome.response 200 "" 0)
      (fun _ => (7 : Int)) none
      (none : Option (Nat → Except String Nat))).sleeps[0]? ≠
        some (9223372037 * 1000000000) ∧
    (performCallAndReadResponse
      (fun k => if k = 0 then Outcome.response 429 "9223372037" (0 : Nat)
        else Outcome.response 200 "" 0)
      (fun _ => (7 : Int)) none
      (none : Option (Nat → Except String Nat))).sleeps[0]? =
        some (-9223372036709551616) ∧
    atoi "9223372037" = some 9223372037 := by
  refine ⟨by decide, by decide, by decide⟩

/-- Claim C6: a transport-level failure on attempt `k` (after `k`
retryable responses) terminates the call immediately with the
transport error: exactly `k + 1` attempts are made and no sleep
follows the failing attempt. -/
theorem transport_failure_immediate {β τ : Type} (o : Nat → Outcome β) (d : Nat → Int)
    (rb : Option (List Nat)) (dec : Option (β → Except String τ)) (k : Nat) (c : String)
    (hk : k < 10)
    (hpre : ∀ j, j < k → isRetryableOutcome (o j) = true)
    (hc : o k = Outcome.transportFailure c) :
    (performCallAndReadResponse o d rb dec).result = Except.error ("Failed call: " ++ c) ∧
    (performCallAndReadResponse o d rb dec).attemptsMade = k + 1 ∧
    (performCallAndReadResponse o d rb dec).sleeps.length = k := by
  have hl := loop_first_transport o d (rb.getD []) k c hk hpre hc
  refine ⟨?_, ?_, ?_⟩
  · rw [performCall_unfold, hl.1]
    rfl
  · rw [performCall_unfold, hl.1, finishCall_attempts]
    simp only [sendList_cons_auth]
    have := hl.2.2.2
    omega
  · rw [performCall_unfold, hl.1, finishCall_sleeps]
    simp only [sleepList_cons_auth]
    rw [hl.2.2.1, waitSeq_length]

/-- Witness for C6: a transport failure on the very first attempt
yields the transport error with one attempt and zero sleeps. -/
theorem transport_failure_immediate_witness :
    (performCallAndReadResponse (fun _ => Outcome.transportFailure "connection refused")
      (fun _ => (7 : Int)) none
      (none : Option (Nat → Except String Nat))).result =
        Except.error "Failed call: connection refused" ∧
    (performCallAndReadResponse (fun _ => Outcome.transportFailure "connection refused")
      (fun _ => (7 : Int)) none
      (none : Option (Nat → Except String Nat))).attemptsMade = 1 ∧
    (performCallAndReadResponse (fun _ => Outcome.transportFailure "connection refused")
      (fun _ => (7 : Int)) none
      (none : Option (Nat → Except String Nat))).sleeps.length = 0 := by
  have h := transport_failure_immediate
    (fun _ => Outcome.transportFailure "connection refused") (fun _ => (7 : Int)) none
    (none : Option (Nat → Except String Nat)) 0 "connection refused"
    (by omega) (fun j hj => absurd hj (by omega)) rfl
  exact ⟨h.1.trans (by rfl), h.2.1, h.2.2⟩

/-- Claim C2 (amended): `AddAuthHeaders` is invoked exactly once per
call, before the first send (it is the first event of every call); the
headers it set on the mutated request persist across retry sends, but
the provider is not re-invoked before retries. -/
theorem authHeaders_once_before_first_send {β τ : Type} (o : Nat → Outcome β) (d : Nat → Int)
    (rb : Option (List Nat)) (dec : Option (β → Except String τ)) :
    (performCallAndReadResponse o d rb dec).authCalls = 1 ∧
    (performCallAndReadResponse o d rb dec).events.head? = some CallEvent.authHeaders := by
  constructor
  · rw [performCall_unfold, finishCall_authCalls]
    simp only [authCount_cons_auth]
    rw [loop_no_auth]
  · rw [performCall_unfold]
    exact finishCall_events_head _ _ _

/-- Counterexample to C2 as stated: in a two-attempt call (one 500,
then one 200) `AddAuthHeaders` is invoked once, not once per send. -/
theorem authHeaders_not_per_send_cx :
    (performCallAndReadResponse
      (fun k => Outcome.response (if k = 0 then 500 else 200) "" (0 : Nat))
      (fun _ => (7 : Int)) none (none : Option (Nat → Except String Nat))).authCalls = 1 ∧
    (performCallAndReadResponse
      (fun k => Outcome.response (if k = 0 then 500 else 200) "" (0 : Nat))
      (fun _ => (7 : Int)) none (none : Option (Nat → Except String Nat))).attemptsMade = 2 ∧
    ¬ ((performCallAndReadResponse
      (fun k => Outcome.response (if k = 0 then 500 else 200) "" (0 : Nat))
      (fun _ => (7 : Int)) none (none : Option (Nat → Except String Nat))).authCalls =
      (performCallAndReadResponse
        (fun k => Outcome.response (if k = 0 then 500 else 200) "" (0 : Nat))
        (fun _ => (7 : Int)) none
        (none : Option (Nat → Except String Nat))).attemptsMade) := by
  refine ⟨by decide, by decide, by decide⟩

/-- Counterexample to C7 as stated: on the retry-limit-exceeded path
(ten 500-responses) the final attempt's response body is closed twice
— once inside the loop and once more by the deferred close — not
exactly once. -/
theorem double_close_on_exhaustion_cx :
    (performCallAndReadResponse (fun _ => Outcome.response 500 "" (0 : Nat))
      (fun _ => (7 : Int)) none
      (none : Option (Nat → Except String Nat))).closes.count 9 = 2 ∧
    ¬ ((performCallAndReadResponse (fun _ => Outcome.response 500 "" (0 : Nat))
      (fun _ => (7 : Int)) none
      (none : Option (Nat → Except String Nat))).closes.count 9 = 1) := by
  refine ⟨by decide, by decide⟩

/-- Claim C7 (amended): on every exit path each response body obtained
is closed at least once, and exactly once except on the
retry-limit-exceeded path, where the tenth (final) response body is
closed twice.  `k` is the index of the first non-retryable attempt
(`k = 10` when all ten attempts yield retryable responses): every
earlier response is closed exactly once; a final success response is
closed exactly once, a final transport failure yields no response to
close, and on exhaustion attempt 9's response is closed twice. -/
theorem close_counts_amended {β τ : Type} (o : Nat → Outcome β) (d : Nat → Int)
    (rb : Option (List Nat)) (dec : Option (β → Except String τ)) (k : Nat)
    (hk : k ≤ 10)
    (hpre : ∀ j, j < k → isRetryableOutcome (o j) = true)
    (hterm : k < 10 → isRetryableOutcome (o k) = false) :
    ∀ j, (performCallAndReadResponse o d rb dec).closes.count j =
      (if k = 10 then (if j < 9 then 1 else if j = 9 then 2 else 0)
       else if j < k then 1
       else if j = k then
         (match o k with
          | Outcome.response _ _ _ => 1
          | Outcome.transportFailure _ => 0)
       else 0) := by
  intro j
  by_cases hk10 : k = 10
  · subst hk10
    have hl := loop_all_fail o d (rb.getD []) (fun j hj => hpre j hj)
    rw [performCall_unfold, hl.1, finishCall_closes]
    simp only [closeList_cons_auth]
    rw [hl.2.1]
    simp only [exitCloses]
    rw [List.count_append, count_range']
    simp only [List.count_cons, List.count_nil, beq_iff_eq]
    split_ifs <;> omega
  · have hk' : k < 10 := by omega
    have hterm' := hterm hk'
    cases ho : o k with
    | response s ra b =>
      have hs : s < 300 := by
        rw [ho] at hterm'
        simp only [isRetryableOutcome, decide_eq_false_iff_not] at hterm'
        omega
      have hl := loop_first_success o d (rb.getD []) k s ra b hk' hpre ho hs
      rw [performCall_unfold, hl.1, finishCall_closes]
      simp only [closeList_cons_auth]
      rw [hl.2.1]
      simp only [exitCloses]
      rw [List.count_append, count_range']
      simp only [List.count_cons, List.count_nil, beq_iff_eq]
      split_ifs <;> omega
    | transportFailure c =>
      have hl := loop_first_transport o d (rb.getD []) k c hk' hpre ho
      rw [performCall_unfold, hl.1, finishCall_closes]
      simp only [closeList_cons_auth]
      rw [hl.2.1]
      simp only [exitCloses, List.append_nil]
      rw [count_range']
      split_ifs <;> omega

/-- Witness for C7 (amended), on the exhaustion path: the first
response body is closed once and the tenth twice. -/
theorem close_counts_amended_witness :
    (performCallAndReadResponse (fun _ => Outcome.response 500 "" (0 : Nat))
      (fun _ => (7 : Int)) none
      (none : Option (Nat → Except String Nat))).closes.count 0 = 1 ∧
    (performCallAndReadResponse (fun _ => Outcome.response 500 "" (0 : Nat))
      (fun _ => (7 : Int)) none
      (none : Option (Nat → Except String Nat))).closes.count 8 = 1 := by
  have h := close_counts_amended (fun _ => Outcome.response 500 "" (0 : Nat))
    (fun _ => (7 : Int)) none (none : Option (Nat → Except String Nat)) 10
    (by omega) (fun j hj => rfl) (fun hlt => absurd hlt (by omega))
  exact ⟨(h 0).trans (by norm_num), (h 8).trans (by norm_num)⟩

/-- Claim C1 (code bug evaluation): a POST body `[120]` with a 500 on
the first attempt: the first send presents the full buffered body, but
the second send presents an empty byte sequence — the buffered reader
installed once before the loop (client.go line 473) was consumed by
the first send and is never reset, so the body is not byte-identical
across retry attempts. -/
theorem performCall_body_not_replayed :
    (performCallAndReadResponse
      (fun k => Outcome.response (if k = 0 then 500 else 200) "" (0 : Nat))
      (fun _ => (7 : Int)) (some [120])
      (none : Option (Nat → Except String Nat))).sentBodies = [[120], []] ∧
    (performCallAndReadResponse
      (fun k => Outcome.response (if k = 0 then 500 else 200) "" (0 : Nat))
      (fun _ => (7 : Int)) (some [120])
      (none : Option (Nat → Except String Nat))).sentBodies[0]? ≠
    (performCallAndReadResponse
      (fun k => Outcome.response (if k = 0 then 500 else 200) "" (0 : Nat))
      (fun _ => (7 : Int)) (some [120])
      (none : Option (Nat → Except String Nat))).sentBodies[1]? := by
  refine ⟨by decide, by decide⟩

/-- Follows the spec's words (§7 error taxonomy): a dedicated
`CanceledError` outcome must be distinct from `RetryLimitExceeded` and
from the generic transport-failure wrapper that every transport error
receives. -/
def specDedicatedCanceledError (e : String) : Prop :=
  e ≠ "Retry limit exceeded" ∧ ∀ c : String, e ≠ "Failed call: " ++ c

/-- Counterexample to C9 as stated: cancellation is only observable to
this code through the next `httpClient.Do` returning a
`context canceled` error (a blocking `time.Sleep` at client.go line
529 is not interruptible, so the full backoff wait of the pending
sleep — here 7 ns — is still recorded).  The call then returns the
generic transport wrapper `Failed call: context canceled`, which is
not a dedicated canceled outcome. -/
theorem canceled_no_dedicated_error_cx :
    (performCallAndReadResponse
      (fun k => if k = 0 then Outcome.response 500 "" (0 : Nat)
        else Outcome.transportFailure "context canceled")
      (fun _ => (7 : Int)) none
      (none : Option (Nat → Except String Nat))).result =
        Except.error "Failed call: context canceled" ∧
    (performCallAndReadResponse
      (fun k => if k = 0 then Outcome.response 500 "" (0 : Nat)
        else Outcome.transportFailure "context canceled")
      (fun _ => (7 : Int)) none
      (none : Option (Nat → Except String Nat))).sleeps = [7] ∧
    ¬ specDedicatedCanceledError "Failed call: context canceled" := by
  refine ⟨by rfl, by rfl, ?_⟩
  intro h
  exact h.2 "context canceled" rfl

/-- Claim C9 (amended): when cancellation fires during an inter-retry
sleep, the code completes the sleep (recording the attempt's full
computed wait) and terminates at the next send, which fails and
surfaces as the generic transport error; the remaining retry attempts
are never made, but no dedicated canceled outcome exists. -/
theorem canceled_surfaces_as_transport {β τ : Type} (o : Nat → Outcome β) (d : Nat → Int)
    (rb : Option (List Nat)) (dec : Option (β → Except String τ)) (k : Nat) (cause : String)
    (hk : k + 1 < 10)
    (hpre : ∀ j, j < k + 1 → isRetryableOutcome (o j) = true)
    (hc : o (k + 1) = Outcome.transportFailure cause) :
    (performCallAndReadResponse o d rb dec).result =
      Except.error ("Failed call: " ++ cause) ∧
    (performCallAndReadResponse o d rb dec).attemptsMade = k + 2 ∧
    (performCallAndReadResponse o d rb dec).sleeps.length = k + 1 ∧
    (performCallAndReadResponse o d rb dec).sleeps[k]? =
      some (attemptWait (o k) (d k)) := by
  have hl := loop_first_transport o d (rb.getD []) (k + 1) cause hk hpre hc
  refine ⟨?_, ?_, ?_, ?_⟩
  · rw [performCall_unfold, hl.1]
    rfl
  · rw [performCall_unfold, hl.1, finishCall_attempts]
    simp only [sendList_cons_auth]
    have := hl.2.2.2
    omega
  · rw [performCall_unfold, hl.1, finishCall_sleeps]
    simp only [sleepList_cons_auth]
    rw [hl.2.2.1, waitSeq_length]
  · rw [performCall_unfold, hl.1, finishCall_sleeps]
    simp only [sleepList_cons_auth]
    rw [hl.2.2.1]
    have hg := waitSeq_get o d (k + 1) 0 0 k (by omega)
    simpa using hg

/-- Witness for C9 (amended): a 500 then a canceled send — the full
7 ns backoff sleep is recorded, then the generic transport error. -/
theorem canceled_surfaces_as_transport_witness :
    (performCallAndReadResponse
      (fun k => if k = 0 then Outcome.response 500 "" (0 : Nat)
        else Outcome.transportFailure "context canceled")
      (fun _ => (7 : Int)) none
      (none : Option (Nat → Except String Nat))).attemptsMade = 2 ∧
    (performCallAndReadResponse
      (fun k => if k = 0 then Outcome.response 500 "" (0 : Nat)
        else Outcome.transportFailure "context canceled")
      (fun _ => (7 : Int)) none
      (none : Option (Nat → Except String Nat))).sleeps[0]? = some 7 := by
  have h := canceled_surfaces_as_transport
    (fun k => if k = 0 then Outcome.response 500 "" (0 : Nat)
      else Outcome.transportFailure "context canceled")
    (fun _ => (7 : Int)) none (none : Option (Nat → Except String Nat)) 0 "context canceled"
    (by omega) (fun j hj => by
      have hj0 : j = 0 := by omega
      subst hj0
      rfl) rfl
  exact ⟨h.2.1, h.2.2.2.trans (by decide)⟩

theorem tokenBodies_length {φ : Type} (pages : Nat → List φ × String) :
    ∀ (m j : Nat), (tokenBodies pages j m).length = m := by
  intro m
  induction m with
  | zero => intro j; rfl
  | succ m ih =>
    intro j
    show (nextPageBody ((pages j).2) :: tokenBodies pages (j + 1) m).length = m + 1
    simp [ih]

theorem pagesLoop_run {φ : Type} (pages : Nat → List φ × String) :
    ∀ (m fuel k : Nat), m ≤ fuel → 1 ≤ k →
    (∀ j, j < m → (pages (k + j - 1)).2 ≠ "") →
    (pages (k + m - 1)).2 = "" →
    pagesLoop pages fuel k ((pages (k - 1)).2) =
      (some (pageConcatFrom pages k m), tokenBodies pages (k - 1) m) := by
  intro m
  induction m with
  | zero =>
    intro fuel k _ hk _ hend
    have he : (pages (k - 1)).2 = "" := by simpa using hend
    cases fuel with
    | zero => simp [pagesLoop, he, pageConcatFrom, tokenBodies]
    | succ f => simp [pagesLoop, he, pageConcatFrom, tokenBodies]
  | succ m ih =>
    intro fuel k hm hk hmid hend
    cases fuel with
    | zero => exact absurd hm (by omega)
    | succ f =>
      have hne : (pages (k - 1)).2 ≠ "" := by
        have := hmid 0 (by omega)
        simpa using this
      have ihr := ih f (k + 1) (by omega) (by omega)
        (fun j hj => by
          have := hmid (j + 1) (by omega)
          have e : k + (j + 1) - 1 = k + 1 + j - 1 := by omega
          rwa [e] at this)
        (by
          have e : k + (m + 1) - 1 = k + 1 + m - 1 := by omega
          rwa [e] at hend)
      simp only [Nat.add_sub_cancel] at ihr
      simp only [pagesLoop, if_neg hne]
      rw [ihr]
      have h1 : pageConcatFrom pages k (m + 1) =
          (pages k).1 ++ pageConcatFrom pages (k + 1) m := rfl
      have h2 : tokenBodies pages (k - 1) (m + 1) =
          nextPageBody ((pages (k - 1)).2) :: tokenBodies pages (k - 1 + 1) m := rfl
      have hk1 : k - 1 + 1 = k := by omega
      rw [h1, h2, hk1]
      simp

/-- Claim C8: for every sequence of `n` successful pages whose final
cursor is the empty string and whose earlier cursors are all
non-empty, `GetFindingsByAssetName` returns the concatenation of the
pages' findings in arrival order, issues exactly `n` page-fetch
calls, and each follow-up call `j + 1` carries exactly the body
`{"next":"<token>"}` built from the cursor returned by call `j`. -/
theorem pagination_aggregates {φ : Type} (pages : Nat → List φ × String)
    (initBody : String) (fuel n : Nat)
    (hn : 1 ≤ n) (hfuel : n - 1 ≤ fuel)
    (hmid : ∀ j, j < n - 1 → (pages j).2 ≠ "")
    (hend : (pages (n - 1)).2 = "") :
    (getFindingsByAssetName pages initBody fuel).1 = some (pageConcatFrom pages 0 n) ∧
    (getFindingsByAssetName pages initBody fuel).2 =
      initBody :: tokenBodies pages 0 (n - 1) ∧
    (getFindingsByAssetName pages initBody fuel).2.length = n := by
  obtain ⟨m, rfl⟩ : ∃ m, n = m + 1 := ⟨n - 1, by omega⟩
  simp only [Nat.add_sub_cancel] at hfuel hmid hend ⊢
  have hr := pagesLoop_run pages m fuel 1 hfuel (by omega)
    (fun j hj => by
      have e : 1 + j - 1 = j := by omega
      rw [e]
      exact hmid j hj)
    (by
      have e : 1 + m - 1 = m := by omega
      rw [e]
      exact hend)
  have h0 : (1 : Nat) - 1 = 0 := rfl
  rw [h0] at hr
  refine ⟨?_, ?_, ?_⟩
  · show ((pagesLoop pages fuel 1 ((pages 0).2)).1.map fun l => (pages 0).1 ++ l) =
      some (pageConcatFrom pages 0 (m + 1))
    rw [hr]
    rfl
  · show initBody :: (pagesLoop pages fuel 1 ((pages 0).2)).2 =
      initBody :: tokenBodies pages 0 m
    rw [hr]
  · show (initBody :: (pagesLoop pages fuel 1 ((pages 0).2)).2).length = m + 1
    rw [hr]
    simp [tokenBodies_length]

/-- Witness for C8: pages `[1,2]` with cursor `c1` then `[3]` with the
empty cursor aggregate to `[1,2,3]` using exactly 2 page-fetch calls,
the second carrying body `{"next":"c1"}`. -/
theorem pagination_aggregates_witness :
    (getFindingsByAssetName
      (fun k => if k = 0 then ([1, 2], "c1") else if k = 1 then ([(3 : Nat)], "") else ([], ""))
      "FILTER" 9).1 = some [1, 2, 3] ∧
    (getFindingsByAssetName
      (fun k => if k = 0 then ([1, 2], "c1") else if k = 1 then ([(3 : Nat)], "") else ([], ""))
      "FILTER" 9).2 = ["FILTER", nextPageBody "c1"] ∧
    (getFindingsByAssetName
      (fun k => if k = 0 then ([1, 2], "c1") else if k = 1 then ([(3 : Nat)], "") else ([], ""))
      "FILTER" 9).2.length = 2 := by
  have h := pagination_aggregates
    (fun k => if k = 0 then ([1, 2], "c1") else if k = 1 then ([(3 : Nat)], "") else ([], ""))
    "FILTER" 9 2 (by omega) (by omega)
    (fun j hj => by
      have hj0 : j = 0 := by omega
      subst hj0
      decide)
    (by decide)
  exact ⟨h.1.trans (by decide), h.2.1.trans (by decide), h.2.2⟩

/-- Claim C10: for every decoded asset list, `GetAssetByName` errors
on an empty list, errors with the count on more than one asset, and
returns the unique asset (without error) exactly when the list is a
singleton. -/
theorem getAssetByName_cases {α : Type} (name : String) (a : α) (rest : List α) :
    getAssetByName name ([] : List α) = Except.error ("No assets matching name: " ++ name) ∧
    getAssetByName name [a] = Except.ok a ∧
    ∀ b : α, getAssetByName name (a :: b :: rest) =
      Except.error ("More than one asset matching name: " ++ name ++
        " (" ++ toString (rest.length + 2) ++ ")") := by
  refine ⟨rfl, rfl, fun b => ?_⟩
  simp only [getAssetByName, List.length_cons]
  rw [if_neg (by omega), if_pos (by omega)]

end Restuss
